import Mathlib

/-!
Verification of the clipboard synchronization daemon in main.go
(vmware-wayland-clipboard-bridge).

The development shallowly embeds the configuration-driven daemon variant:
the SHA-256 content fingerprint (crypto/sha256 as used by
ClipboardManager.hash), the four clipboard endpoint adapters, the sync
cycle syncClipboards, manager construction NewClipboardManager, and the
startup control flow of main.  External tool invocations (wl-paste,
wl-copy, xclip) are modelled by explicit outcome parameters: a read either
fails (timeout, missing tool, non-zero exit) or yields the output of the tool;
a write invocation either takes effect or fails.  Machine integers of the
32-bit SHA-256 core are Nat with explicit reduction modulo 2^32.
-/

set_option maxRecDepth 100000

/-! ## SHA-256 (crypto/sha256), over lists of bytes represented as Nat -/

/-- Right rotation of a 32-bit word represented as a Nat below 2^32. -/
def rotr32 (n x : Nat) : Nat := ((x >>> n) ||| (x <<< (32 - n))) % 4294967296

/-- Logical right shift of a 32-bit word. -/
def shr32 (n x : Nat) : Nat := x >>> n

/-- Addition modulo 2^32. -/
def add32 (x y : Nat) : Nat := (x + y) % 4294967296

/-- Bitwise complement of a 32-bit word. -/
def not32 (x : Nat) : Nat := x ^^^ 4294967295

/-- SHA-256 big sigma 0. -/
def bigSigma0 (x : Nat) : Nat := (rotr32 2 x ^^^ rotr32 13 x) ^^^ rotr32 22 x

/-- SHA-256 big sigma 1. -/
def bigSigma1 (x : Nat) : Nat := (rotr32 6 x ^^^ rotr32 11 x) ^^^ rotr32 25 x

/-- SHA-256 small sigma 0. -/
def smallSigma0 (x : Nat) : Nat := (rotr32 7 x ^^^ rotr32 18 x) ^^^ shr32 3 x

/-- SHA-256 small sigma 1. -/
def smallSigma1 (x : Nat) : Nat := (rotr32 17 x ^^^ rotr32 19 x) ^^^ shr32 10 x

/-- SHA-256 choice function. -/
def ch32 (e f g : Nat) : Nat := (e &&& f) ^^^ (not32 e &&& g)

/-- SHA-256 majority function. -/
def maj32 (a b c : Nat) : Nat := ((a &&& b) ^^^ (a &&& c)) ^^^ (b &&& c)

/-- SHA-256 round constants (FIPS 180-4). -/
def K256 : List Nat :=
  [1116352408, 1899447441, 3049323471, 3921009573,
   961987163, 1508970993, 2453635748, 2870763221,
   3624381080, 310598401, 607225278, 1426881987,
   1925078388, 2162078206, 2614888103, 3248222580,
   3835390401, 4022224774, 264347078, 604807628,
   770255983, 1249150122, 1555081692, 1996064986,
   2554220882, 2821834349, 2952996808, 3210313671,
   3336571891, 3584528711, 113926993, 338241895,
   666307205, 773529912, 1294757372, 1396182291,
   1695183700, 1986661051, 2177026350, 2456956037,
   2730485921, 2820302411, 3259730800, 3345764771,
   3516065817, 3600352804, 4094571909, 275423344,
   430227734, 506948616, 659060556, 883997877,
   958139571, 1322822218, 1537002063, 1747873779,
   1955562222, 2024104815, 2227730452, 2361852424,
   2428436474, 2756734187, 3204031479, 3329325298]

/-- SHA-256 initial hash value (FIPS 180-4). -/
def H256 : List Nat :=
  [1779033703, 3144134277, 1013904242, 2773480762,
   1359893119, 2600822924, 528734635, 1541459225]

/-- Working variables of the SHA-256 compression function. -/
structure Sha256State where
  a : Nat
  b : Nat
  c : Nat
  d : Nat
  e : Nat
  f : Nat
  g : Nat
  h : Nat
deriving DecidableEq

/-- One round of the SHA-256 compression function. -/
def compressRound (s : Sha256State) (wk : Nat × Nat) : Sha256State :=
  let t1 := (s.h + bigSigma1 s.e + ch32 s.e s.f s.g + wk.2 + wk.1) % 4294967296
  let t2 := (bigSigma0 s.a + maj32 s.a s.b s.c) % 4294967296
  ⟨add32 t1 t2, s.a, s.b, s.c, add32 s.d t1, s.e, s.f, s.g⟩

/-- Word at index i of the message schedule, 0 out of range. -/
def wAt (ws : List Nat) (i : Nat) : Nat := ws.getD i 0

/-- Extend a message schedule by n further words. -/
def extendSchedule (ws : List Nat) : Nat → List Nat
  | 0 => ws
  | n + 1 =>
    let t := ws.length
    extendSchedule
      (ws ++ [(smallSigma1 (wAt ws (t - 2)) + wAt ws (t - 7) +
               smallSigma0 (wAt ws (t - 15)) + wAt ws (t - 16)) % 4294967296]) n

/-- Parse a block of bytes into big-endian 32-bit words. -/
def toWords : List Nat → List Nat
  | b0 :: b1 :: b2 :: b3 :: rest => (((b0 * 256 + b1) * 256 + b2) * 256 + b3) :: toWords rest
  | _ => []

/-- Compress one 64-byte block into the running hash value (8 words). -/
def compressBlock (hv : List Nat) (block : List Nat) : List Nat :=
  let w := extendSchedule (toWords block) 48
  match hv with
  | [a, b, c, d, e, f, g, h] =>
    let s := (w.zip K256).foldl compressRound ⟨a, b, c, d, e, f, g, h⟩
    [add32 a s.a, add32 b s.b, add32 c s.c, add32 d s.d,
     add32 e s.e, add32 f s.f, add32 g s.g, add32 h s.h]
  | _ => []

/-- Fold n 64-byte blocks of the padded message into the hash value. -/
def processBlocks : Nat → List Nat → List Nat → List Nat
  | 0, hv, _ => hv
  | n + 1, hv, bs => processBlocks n (compressBlock hv (bs.take 64)) (bs.drop 64)

/-- Big-endian 8-byte encoding of the bit length. -/
def lenBytes (n : Nat) : List Nat :=
  [(n / 72057594037927936) % 256, (n / 281474976710656) % 256,
   (n / 1099511627776) % 256, (n / 4294967296) % 256,
   (n / 16777216) % 256, (n / 65536) % 256, (n / 256) % 256, n % 256]

/-- SHA-256 message padding: 0x80, zeros to 56 mod 64, then the bit length. -/
def padMessage (msg : List Nat) : List Nat :=
  let l := msg.length
  let k := (120 - ((l + 1) % 64)) % 64
  msg ++ 128 :: List.replicate k 0 ++ lenBytes (8 * l)

/-- SHA-256 digest of a byte list, as 8 words. -/
def sha256Words (msg : List Nat) : List Nat :=
  let p := padMessage msg
  processBlocks (p.length / 64) H256 p

/-- Lowercase hexadecimal digit. -/
def hexDigit (n : Nat) : Char := if n < 10 then Char.ofNat (48 + n) else Char.ofNat (87 + n)

/-- Lowercase hexadecimal rendering of a 32-bit word, 8 digits. -/
def wordHex (x : Nat) : List Char :=
  [hexDigit ((x / 268435456) % 16), hexDigit ((x / 16777216) % 16),
   hexDigit ((x / 1048576) % 16), hexDigit ((x / 65536) % 16),
   hexDigit ((x / 4096) % 16), hexDigit ((x / 256) % 16),
   hexDigit ((x / 16) % 16), hexDigit (x % 16)]

/-- Lowercase hex SHA-256 digest of a byte list, as produced by
fmt.Sprintf applied with the x verb to sha256.Sum256. -/
def sha256Hex (msg : List Nat) : String :=
  String.mk ((sha256Words msg).foldr (fun w acc => wordHex w ++ acc) [])

/-! ## Go strings as UTF-8 byte sequences -/

/-- UTF-8 encoding of one character, as Go produces for a byte conversion
of a string. -/
def utf8EncodeChar (c : Char) : List Nat :=
  let n := c.toNat
  if n < 128 then [n]
  else if n < 2048 then [192 + n / 64, 128 + n % 64]
  else if n < 65536 then [224 + n / 4096, 128 + (n / 64) % 64, 128 + n % 64]
  else [240 + n / 262144, 128 + (n / 4096) % 64, 128 + (n / 64) % 64, 128 + n % 64]

/-- UTF-8 bytes of a string, the Go byte-slice conversion of a string. -/
def stringBytes (s : String) : List Nat :=
  s.data.foldr (fun c acc => utf8EncodeChar c ++ acc) []

/-- Go len of a string: the number of UTF-8 bytes. -/
def goLen (s : String) : Nat := (stringBytes s).length

/-- Size-guarded read result: the content an adapter read yields from a
successful tool run with the given output. -/
def clamp (max : Nat) (s : String) : String := if goLen s > max then "" else s

/-! ## Configuration (Config, Timeouts, SyncConfig, LoggingConfig) -/

/-- Timeouts section of the configuration: command_timeout (seconds) and
max_clipboard_size (bytes). -/
structure Timeouts where
  commandTimeout : Nat
  maxClipboardSize : Nat
deriving DecidableEq

/-- Sync section of the configuration: interval_ms and enable_logging. -/
structure SyncConfig where
  intervalMs : Nat
  enableLogging : Bool
deriving DecidableEq

/-- Logging section of the configuration: verbose and log_file (empty
means stdout). -/
structure LoggingConfig where
  verbose : Bool
  logFile : String
deriving DecidableEq

/-- Configuration file structure. -/
structure Config where
  timeouts : Timeouts
  sync : SyncConfig
  logging : LoggingConfig
deriving DecidableEq

/-- Simplified filepath.Join for building the default log path; no claim
depends on the path value, only on whether it is empty. -/
def joinPath (a b : String) : String := if a = "" then b else a ++ "/" ++ b

/-- Built-in default configuration (getDefaultConfig), parameterized by
the home directory obtained from os.UserHomeDir. -/
def getDefaultConfig (home : String) : Config :=
  { timeouts := { commandTimeout := 2, maxClipboardSize := 52428800 }
    sync := { intervalMs := 500, enableLogging := true }
    logging := { verbose := true
                 logFile := joinPath home ".local/share/vmware-sway-sync/sync.log" } }

/-! ## ClipboardManager state -/

/-- Synchronization engine state (the ClipboardManager struct).  The
io.WriteCloser and log.Logger fields are process handles carrying no
synchronization state and are not represented. -/
structure ClipboardManager where
  lastWaylandHash : String
  lastX11Hash : String
  syncIntervalMs : Nat
  commandTimeoutSec : Nat
  maxClipboardSize : Nat
  enableLogging : Bool
deriving DecidableEq

/-- NewClipboardManager: builds the manager from the configuration.  When
log_file is nonempty, creating the log directory (os.MkdirAll) and opening
the log file may fail; these external outcomes are the mkdirOk and openOk
parameters.  The two fingerprint fields are absent from the Go struct
literal and therefore start at the Go zero value for strings, the empty
string. -/
def NewClipboardManager (config : Config) (mkdirOk openOk : Bool) :
    Except String ClipboardManager :=
  if config.logging.logFile ≠ "" ∧ mkdirOk = false then
    .error "failed to create log directory"
  else if config.logging.logFile ≠ "" ∧ openOk = false then
    .error "failed to open log file"
  else
    .ok { lastWaylandHash := ""
          lastX11Hash := ""
          syncIntervalMs := config.sync.intervalMs
          commandTimeoutSec := config.timeouts.commandTimeout
          maxClipboardSize := config.timeouts.maxClipboardSize
          enableLogging := config.logging.verbose }

/-- SHA-256 hex fingerprint of a content string, the hash method of
ClipboardManager (sha256.Sum256 of the byte conversion, rendered through
fmt.Sprintf with the x verb).  The receiver is unused by the source
method as well. -/
def ClipboardManager.hash (_cm : ClipboardManager) (content : String) : String :=
  sha256Hex (stringBytes content)

/-! ## Endpoint adapters -/

/-- Outcome of one external read invocation: the run fails (timeout,
missing tool, non-zero exit) or yields the standard output of the tool. -/
inductive ReadOutcome where
  | ok (output : String)
  | fail
deriving DecidableEq

/-- getWaylandClipboard: runs wl-paste under the command timeout; a failed
run yields the empty string with a nil error, oversized output is dropped
and also yields the empty string with a nil error. -/
def ClipboardManager.getWaylandClipboard (cm : ClipboardManager) (r : ReadOutcome) :
    String × Option String :=
  match r with
  | .fail => ("", none)
  | .ok content =>
    if goLen content > cm.maxClipboardSize then ("", none) else (content, none)

/-- getX11Clipboard: runs xclip with the o flag under the command timeout;
same failure and size policy as the Wayland read. -/
def ClipboardManager.getX11Clipboard (cm : ClipboardManager) (r : ReadOutcome) :
    String × Option String :=
  match r with
  | .fail => ("", none)
  | .ok content =>
    if goLen content > cm.maxClipboardSize then ("", none) else (content, none)

/-- Result of one adapter write call: the error value the Go function
returns (always nil), the content handed to the external tool when the
tool was invoked at all, and whether the write took effect on the
endpoint (cmd.Run succeeded). -/
structure WriteResult where
  err : Option String
  invocation : Option String
  applied : Bool
deriving DecidableEq

/-- setX11Clipboard: skips the invocation entirely for oversized content;
otherwise runs xclip with the i flag, whose success is the runOk
parameter; every path returns a nil error. -/
def ClipboardManager.setX11Clipboard (cm : ClipboardManager) (content : String)
    (runOk : Bool) : WriteResult :=
  if goLen content > cm.maxClipboardSize then ⟨none, none, false⟩
  else ⟨none, some content, runOk⟩

/-- setWaylandClipboard: skips the invocation entirely for oversized
content; otherwise runs wl-copy, whose success is the runOk parameter;
every path returns a nil error. -/
def ClipboardManager.setWaylandClipboard (cm : ClipboardManager) (content : String)
    (runOk : Bool) : WriteResult :=
  if goLen content > cm.maxClipboardSize then ⟨none, none, false⟩
  else ⟨none, some content, runOk⟩

/-! ## One sync cycle (syncClipboards, main.go lines 198 to 233) -/

/-- External behavior during one cycle: outcomes of the two reads and
success of the (at most two) write invocations. -/
structure ExtEnv where
  waylandRead : ReadOutcome
  x11Read : ReadOutcome
  x11WriteOk : Bool
  waylandWriteOk : Bool
deriving DecidableEq

/-- Result of the Wayland to X11 half of the cycle: updated manager,
updated working x11Hash variable, and the write event if the branch
invoked the external write tool. -/
structure WaylandToX11Out where
  cm : ClipboardManager
  x11Hash : String
  write : Option (String × Bool)
deriving DecidableEq

/-- Result of the X11 to Wayland half of the cycle. -/
structure X11ToWaylandOut where
  cm : ClipboardManager
  write : Option (String × Bool)
deriving DecidableEq

/-- Wayland to X11 direction (lines 206 to 217): when the Wayland side
changed and is non-empty and differs from the X11 side, write it to X11,
set lastX11Hash and the working x11Hash to the Wayland hash; in every
taken branch record the observed Wayland hash in lastWaylandHash.  The
returned error of setX11Clipboard is nil on all paths, so the error check
in the source only logs. -/
def waylandToX11Block (cm : ClipboardManager) (waylandContent waylandHash x11Hash : String)
    (writeOk : Bool) : WaylandToX11Out :=
  if waylandHash ≠ cm.lastWaylandHash ∧ waylandContent ≠ "" then
    if waylandHash ≠ x11Hash then
      let wres := cm.setX11Clipboard waylandContent writeOk
      { cm := { cm with lastX11Hash := waylandHash, lastWaylandHash := waylandHash }
        x11Hash := waylandHash
        write := match wres.invocation with
                 | some c => some (c, wres.applied)
                 | none => none }
    else
      { cm := { cm with lastWaylandHash := waylandHash }, x11Hash := x11Hash, write := none }
  else
    { cm := cm, x11Hash := x11Hash, write := none }

/-- X11 to Wayland direction (lines 219 to 230), symmetric, using the
working x11Hash possibly updated by the first direction. -/
def x11ToWaylandBlock (cm : ClipboardManager) (x11Content x11Hash waylandHash : String)
    (writeOk : Bool) : X11ToWaylandOut :=
  if x11Hash ≠ cm.lastX11Hash ∧ x11Content ≠ "" then
    if x11Hash ≠ waylandHash then
      let wres := cm.setWaylandClipboard x11Content writeOk
      { cm := { cm with lastWaylandHash := x11Hash, lastX11Hash := x11Hash }
        write := match wres.invocation with
                 | some c => some (c, wres.applied)
                 | none => none }
    else
      { cm := { cm with lastX11Hash := x11Hash }, write := none }
  else
    { cm := cm, write := none }

/-- Result of one sync cycle: final manager state and the write events of
the two directions (content handed to the tool and whether the write took
effect). -/
structure CycleResult where
  cm : ClipboardManager
  x11Write : Option (String × Bool)
  waylandWrite : Option (String × Bool)
deriving DecidableEq

/-- syncClipboards: read both clipboards, fingerprint the contents, then
run the Wayland to X11 direction followed by the X11 to Wayland
direction. -/
def syncClipboards (cm : ClipboardManager) (env : ExtEnv) : CycleResult :=
  let waylandContent := (cm.getWaylandClipboard env.waylandRead).1
  let x11Content := (cm.getX11Clipboard env.x11Read).1
  let waylandHash := cm.hash waylandContent
  let x11Hash := cm.hash x11Content
  let b1 := waylandToX11Block cm waylandContent waylandHash x11Hash env.x11WriteOk
  let b2 := x11ToWaylandBlock b1.cm x11Content b1.x11Hash waylandHash env.waylandWriteOk
  ⟨b2.cm, b1.write, b2.write⟩

/-! ## Cycle against concrete endpoints -/

/-- Contents of the two clipboard endpoints. -/
structure World where
  wayland : String
  x11 : String
deriving DecidableEq

/-- Environment of a cycle in which both reads succeed and report the
endpoint contents and both write invocations take effect. -/
def envOk (w x : String) : ExtEnv := ⟨.ok w, .ok x, true, true⟩

/-- One cycle run against concrete endpoint contents, with every external
invocation succeeding: reads report the endpoint contents, applied writes
replace them. -/
def applyCycle (cm : ClipboardManager) (w : World) : ClipboardManager × World :=
  let r := syncClipboards cm (envOk w.wayland w.x11)
  (r.cm,
   { wayland := match r.waylandWrite with
                | some (c, true) => c
                | _ => w.wayland
     x11 := match r.x11Write with
            | some (c, true) => c
            | _ => w.x11 })

/-- Believed Wayland-side content of the engine after a cycle: the
content handed to the Wayland write tool in this cycle if any, else the
content produced by the Wayland read of this cycle. -/
def believedWayland (cm : ClipboardManager) (env : ExtEnv) : String :=
  match (syncClipboards cm env).waylandWrite with
  | some (c, _) => c
  | none => (cm.getWaylandClipboard env.waylandRead).1

/-- Believed X11-side content of the engine after a cycle: the content
handed to the X11 write tool in this cycle if any, else the content
produced by the X11 read of this cycle. -/
def believedX11 (cm : ClipboardManager) (env : ExtEnv) : String :=
  match (syncClipboards cm env).x11Write with
  | some (c, _) => c
  | none => (cm.getX11Clipboard env.x11Read).1

/-- Number of external tool invocations a cycle performed: the two reads
plus each write invocation that actually ran. -/
def externalInvocations (r : CycleResult) : Nat :=
  2 + (match r.x11Write with | some _ => 1 | none => 0) +
      (match r.waylandWrite with | some _ => 1 | none => 0)

/-! ## Startup (main, lines 324 to 348) -/

/-- Required external tools checked by main via exec.LookPath, in order. -/
def requiredTools : List String := ["wl-paste", "wl-copy", "xclip"]

/-- Outcome of the startup sequence: exit with status 1 on the first
missing tool, exit with status 1 when manager construction fails, or
enter the sync loop with the constructed manager. -/
inductive MainOutcome where
  | exitMissingTool (tool : String)
  | exitManagerError (msg : String)
  | started (cm : ClipboardManager)
deriving DecidableEq

/-- Process exit status of a startup outcome; none while running. -/
def MainOutcome.exitStatus : MainOutcome → Option Nat
  | .exitMissingTool _ => some 1
  | .exitManagerError _ => some 1
  | .started _ => none

/-- main: check tool availability (exec.LookPath outcome is the look
parameter), load the configuration (outcome of LoadConfig is the load
parameter, falling back to the defaults on error without exiting), then
construct the manager, exiting with status 1 when construction fails. -/
def mainRun (home : String) (look : String → Bool) (load : Except String Config)
    (mkdirOk openOk : Bool) : MainOutcome :=
  match requiredTools.find? (fun t => ! look t) with
  | some t => .exitMissingTool t
  | none =>
    let config := match load with
      | .ok c => c
      | .error _ => getDefaultConfig home
    match NewClipboardManager config mkdirOk openOk with
    | .ok cm => .started cm
    | .error e => .exitManagerError e

/-- Concrete manager used in witnesses and counterexamples: given
fingerprints and size limit, default interval and timeout. -/
def cmDemo (lw lx : String) (max : Nat) : ClipboardManager :=
  { lastWaylandHash := lw, lastX11Hash := lx, syncIntervalMs := 500,
    commandTimeoutSec := 2, maxClipboardSize := max, enableLogging := true }

/-- Concrete manager whose fingerprints hold the digest of empty content,
the initial state the specification describes. -/
def cmEmptyHash : ClipboardManager :=
  cmDemo (sha256Hex (stringBytes "")) (sha256Hex (stringBytes "")) 100

/-- Concrete manager whose fingerprints hold the digest of the one-byte
content a, the steady state after both sides synchronized on it. -/
def cmSyncedA : ClipboardManager :=
  cmDemo (sha256Hex (stringBytes "a")) (sha256Hex (stringBytes "a")) 100

/-- Concrete configuration with a nonempty log file path: the built-in
defaults for a fixed home directory. -/
def cfgDemo : Config := getDefaultConfig "/home/user"

/-- Manager produced by constructing from the default configuration. -/
def cmInit : ClipboardManager :=
  { lastWaylandHash := "", lastX11Hash := "", syncIntervalMs := 500,
    commandTimeoutSec := 2, maxClipboardSize := 52428800, enableLogging := true }

/-! ## Basic lemmas about the adapters -/

theorem hash_def (cm : ClipboardManager) (s : String) :
    cm.hash s = sha256Hex (stringBytes s) := rfl

theorem goLen_empty : goLen "" = 0 := rfl

theorem getWayland_ok (cm : ClipboardManager) (s : String) :
    cm.getWaylandClipboard (.ok s) = (clamp cm.maxClipboardSize s, none) := by
  simp only [ClipboardManager.getWaylandClipboard, clamp]
  split <;> simp_all

theorem getX11_ok (cm : ClipboardManager) (s : String) :
    cm.getX11Clipboard (.ok s) = (clamp cm.maxClipboardSize s, none) := by
  simp only [ClipboardManager.getX11Clipboard, clamp]
  split <;> simp_all

theorem clamp_le (m : Nat) (s : String) : goLen (clamp m s) ≤ m := by
  unfold clamp
  split
  · simp [goLen_empty]
  · omega

theorem clamp_clamp (m : Nat) (s : String) : clamp m (clamp m s) = clamp m s := by
  unfold clamp
  split_ifs <;> rfl

theorem clamp_eq_self (m : Nat) (s : String) (h : goLen s ≤ m) : clamp m s = s := by
  unfold clamp
  rw [if_neg (by omega)]

theorem readWayland_le (cm : ClipboardManager) (r : ReadOutcome) :
    goLen ((cm.getWaylandClipboard r).1) ≤ cm.maxClipboardSize := by
  cases r with
  | fail => simp [ClipboardManager.getWaylandClipboard, goLen_empty]
  | ok s => rw [getWayland_ok]; exact clamp_le _ _

theorem readX11_le (cm : ClipboardManager) (r : ReadOutcome) :
    goLen ((cm.getX11Clipboard r).1) ≤ cm.maxClipboardSize := by
  cases r with
  | fail => simp [ClipboardManager.getX11Clipboard, goLen_empty]
  | ok s => rw [getX11_ok]; exact clamp_le _ _

/-! ## Branch characterization of the two cycle directions -/

theorem waylandToX11Block_skip (cm : ClipboardManager) (wc wh xh : String) (ok : Bool)
    (h : wh = cm.lastWaylandHash ∨ wc = "") :
    waylandToX11Block cm wc wh xh ok = ⟨cm, xh, none⟩ := by
  unfold waylandToX11Block
  rw [if_neg (by tauto)]

theorem waylandToX11Block_nowrite (cm : ClipboardManager) (wc wh xh : String) (ok : Bool)
    (h1 : wh ≠ cm.lastWaylandHash) (h2 : wc ≠ "") (h3 : wh = xh) :
    waylandToX11Block cm wc wh xh ok =
      ⟨{ cm with lastWaylandHash := wh }, xh, none⟩ := by
  unfold waylandToX11Block
  rw [if_pos ⟨h1, h2⟩, if_neg (not_not_intro h3)]

theorem waylandToX11Block_write (cm : ClipboardManager) (wc wh xh : String) (ok : Bool)
    (h1 : wh ≠ cm.lastWaylandHash) (h2 : wc ≠ "") (h3 : wh ≠ xh)
    (h4 : goLen wc ≤ cm.maxClipboardSize) :
    waylandToX11Block cm wc wh xh ok =
      ⟨{ cm with lastX11Hash := wh, lastWaylandHash := wh }, wh, some (wc, ok)⟩ := by
  unfold waylandToX11Block ClipboardManager.setX11Clipboard
  rw [if_pos ⟨h1, h2⟩, if_pos h3]
  simp [Nat.not_lt.mpr h4]

theorem x11ToWaylandBlock_skip (cm : ClipboardManager) (xc xh wh : String) (ok : Bool)
    (h : xh = cm.lastX11Hash ∨ xc = "") :
    x11ToWaylandBlock cm xc xh wh ok = ⟨cm, none⟩ := by
  unfold x11ToWaylandBlock
  rw [if_neg (by tauto)]

theorem x11ToWaylandBlock_nowrite (cm : ClipboardManager) (xc xh wh : String) (ok : Bool)
    (h1 : xh ≠ cm.lastX11Hash) (h2 : xc ≠ "") (h3 : xh = wh) :
    x11ToWaylandBlock cm xc xh wh ok = ⟨{ cm with lastX11Hash := xh }, none⟩ := by
  unfold x11ToWaylandBlock
  rw [if_pos ⟨h1, h2⟩, if_neg (not_not_intro h3)]

theorem x11ToWaylandBlock_write (cm : ClipboardManager) (xc xh wh : String) (ok : Bool)
    (h1 : xh ≠ cm.lastX11Hash) (h2 : xc ≠ "") (h3 : xh ≠ wh)
    (h4 : goLen xc ≤ cm.maxClipboardSize) :
    x11ToWaylandBlock cm xc xh wh ok =
      ⟨{ cm with lastWaylandHash := xh, lastX11Hash := xh }, some (xc, ok)⟩ := by
  unfold x11ToWaylandBlock ClipboardManager.setWaylandClipboard
  rw [if_pos ⟨h1, h2⟩, if_pos h3]
  simp [Nat.not_lt.mpr h4]

theorem sync_ok_eq (cm : ClipboardManager) (W X : String) (o1 o2 : Bool) :
    syncClipboards cm ⟨.ok W, .ok X, o1, o2⟩ =
      (let a := clamp cm.maxClipboardSize W
       let b := clamp cm.maxClipboardSize X
       let b1 := waylandToX11Block cm a (cm.hash a) (cm.hash b) o1
       let b2 := x11ToWaylandBlock b1.cm b b1.x11Hash (cm.hash a) o2
       (⟨b2.cm, b1.write, b2.write⟩ : CycleResult)) := by
  unfold syncClipboards
  rw [getWayland_ok, getX11_ok]

/-- Cycle with no observed change on either side: when the read result
of each side is empty or fingerprints to the stored value, the cycle performs
no write and leaves the manager untouched. -/
theorem sync_noop (cm : ClipboardManager) (W X : String) (o1 o2 : Bool)
    (h1 : clamp cm.maxClipboardSize W = "" ∨
          cm.hash (clamp cm.maxClipboardSize W) = cm.lastWaylandHash)
    (h2 : clamp cm.maxClipboardSize X = "" ∨
          cm.hash (clamp cm.maxClipboardSize X) = cm.lastX11Hash) :
    syncClipboards cm ⟨.ok W, .ok X, o1, o2⟩ = ⟨cm, none, none⟩ := by
  rw [sync_ok_eq]
  dsimp only
  rw [waylandToX11Block_skip _ _ _ _ _ (by tauto)]
  dsimp only
  rw [x11ToWaylandBlock_skip _ _ _ _ _ (by tauto)]

/-- After one failure-free cycle against concrete endpoints, the content
of each endpoint either reads back empty or fingerprints to the stored
hash, and the size limit is unchanged. -/
theorem applyCycle_coherent (cm : ClipboardManager) (w : World) :
    (applyCycle cm w).1.maxClipboardSize = cm.maxClipboardSize ∧
    (clamp cm.maxClipboardSize (applyCycle cm w).2.wayland = "" ∨
      cm.hash (clamp cm.maxClipboardSize (applyCycle cm w).2.wayland) =
        (applyCycle cm w).1.lastWaylandHash) ∧
    (clamp cm.maxClipboardSize (applyCycle cm w).2.x11 = "" ∨
      cm.hash (clamp cm.maxClipboardSize (applyCycle cm w).2.x11) =
        (applyCycle cm w).1.lastX11Hash) := by
  unfold applyCycle envOk
  rw [sync_ok_eq]
  dsimp only
  by_cases h1 : cm.hash (clamp cm.maxClipboardSize w.wayland) = cm.lastWaylandHash ∨
      clamp cm.maxClipboardSize w.wayland = ""
  · rw [waylandToX11Block_skip _ _ _ _ _ h1]
    dsimp only
    by_cases h2 : cm.hash (clamp cm.maxClipboardSize w.x11) = cm.lastX11Hash ∨
        clamp cm.maxClipboardSize w.x11 = ""
    · rw [x11ToWaylandBlock_skip _ _ _ _ _ h2]
      exact ⟨rfl, by tauto, by tauto⟩
    · push_neg at h2
      by_cases h3 : cm.hash (clamp cm.maxClipboardSize w.x11) =
          cm.hash (clamp cm.maxClipboardSize w.wayland)
      · rw [x11ToWaylandBlock_nowrite _ _ _ _ _ h2.1 h2.2 h3]
        exact ⟨rfl, by tauto, by simp⟩
      · rw [x11ToWaylandBlock_write _ _ _ _ _ h2.1 h2.2 h3 (clamp_le _ _)]
        refine ⟨rfl, ?_, ?_⟩
        · right
          rw [clamp_clamp]
        · right
          rfl
  · push_neg at h1
    by_cases h3 : cm.hash (clamp cm.maxClipboardSize w.wayland) =
        cm.hash (clamp cm.maxClipboardSize w.x11)
    · rw [waylandToX11Block_nowrite _ _ _ _ _ h1.1 h1.2 h3]
      dsimp only
      by_cases h2 : cm.hash (clamp cm.maxClipboardSize w.x11) = cm.lastX11Hash ∨
          clamp cm.maxClipboardSize w.x11 = ""
      · rw [x11ToWaylandBlock_skip _ _ _ _ _ (by tauto)]
        exact ⟨rfl, by simp, by tauto⟩
      · push_neg at h2
        rw [x11ToWaylandBlock_nowrite _ _ _ _ _ (by exact h2.1) h2.2 h3.symm]
        exact ⟨rfl, by simp, by simp⟩
    · rw [waylandToX11Block_write _ _ _ _ _ h1.1 h1.2 h3 (clamp_le _ _)]
      dsimp only
      rw [x11ToWaylandBlock_skip _ _ _ _ _ (by exact Or.inl rfl)]
      refine ⟨rfl, ?_, ?_⟩
      · right
        rfl
      · right
        rw [clamp_clamp]

/-- Exhaustive case analysis of one cycle: given the two read results, the
cycle takes exactly one of six branch combinations, each with its guard
conditions and its fully determined result. -/
theorem sync_cases (cm : ClipboardManager) (env : ExtEnv) (a b : String)
    (hA : (cm.getWaylandClipboard env.waylandRead).1 = a)
    (hB : (cm.getX11Clipboard env.x11Read).1 = b) :
    ((cm.hash a = cm.lastWaylandHash ∨ a = "") ∧ (cm.hash b = cm.lastX11Hash ∨ b = "") ∧
       syncClipboards cm env = ⟨cm, none, none⟩) ∨
    ((cm.hash a = cm.lastWaylandHash ∨ a = "") ∧ cm.hash b ≠ cm.lastX11Hash ∧ b ≠ "" ∧
       cm.hash b = cm.hash a ∧
       syncClipboards cm env = ⟨{ cm with lastX11Hash := cm.hash b }, none, none⟩) ∨
    ((cm.hash a = cm.lastWaylandHash ∨ a = "") ∧ cm.hash b ≠ cm.lastX11Hash ∧ b ≠ "" ∧
       cm.hash b ≠ cm.hash a ∧
       syncClipboards cm env =
         ⟨{ cm with lastWaylandHash := cm.hash b, lastX11Hash := cm.hash b }, none,
          some (b, env.waylandWriteOk)⟩) ∨
    (cm.hash a ≠ cm.lastWaylandHash ∧ a ≠ "" ∧ cm.hash a = cm.hash b ∧
       (cm.hash b = cm.lastX11Hash ∨ b = "") ∧
       syncClipboards cm env = ⟨{ cm with lastWaylandHash := cm.hash a }, none, none⟩) ∨
    (cm.hash a ≠ cm.lastWaylandHash ∧ a ≠ "" ∧ cm.hash a = cm.hash b ∧
       cm.hash b ≠ cm.lastX11Hash ∧ b ≠ "" ∧
       syncClipboards cm env =
         ⟨{ cm with lastWaylandHash := cm.hash a, lastX11Hash := cm.hash b }, none, none⟩) ∨
    (cm.hash a ≠ cm.lastWaylandHash ∧ a ≠ "" ∧ cm.hash a ≠ cm.hash b ∧
       syncClipboards cm env =
         ⟨{ cm with lastX11Hash := cm.hash a, lastWaylandHash := cm.hash a },
          some (a, env.x11WriteOk), none⟩) := by
  have hale : goLen a ≤ cm.maxClipboardSize := hA ▸ readWayland_le cm env.waylandRead
  have hble : goLen b ≤ cm.maxClipboardSize := hB ▸ readX11_le cm env.x11Read
  by_cases hc1 : cm.hash a = cm.lastWaylandHash ∨ a = ""
  · by_cases hc2 : cm.hash b = cm.lastX11Hash ∨ b = ""
    · refine Or.inl ⟨hc1, hc2, ?_⟩
      simp only [syncClipboards]
      rw [hA, hB, waylandToX11Block_skip _ _ _ _ _ (by tauto)]
      dsimp only
      rw [x11ToWaylandBlock_skip _ _ _ _ _ (by tauto)]
    · push_neg at hc2
      by_cases hc3 : cm.hash b = cm.hash a
      · refine Or.inr (Or.inl ⟨hc1, hc2.1, hc2.2, hc3, ?_⟩)
        simp only [syncClipboards]
        rw [hA, hB, waylandToX11Block_skip _ _ _ _ _ (by tauto)]
        dsimp only
        rw [x11ToWaylandBlock_nowrite _ _ _ _ _ hc2.1 hc2.2 hc3]
      · refine Or.inr (Or.inr (Or.inl ⟨hc1, hc2.1, hc2.2, hc3, ?_⟩))
        simp only [syncClipboards]
        rw [hA, hB, waylandToX11Block_skip _ _ _ _ _ (by tauto)]
        dsimp only
        rw [x11ToWaylandBlock_write _ _ _ _ _ hc2.1 hc2.2 hc3 hble]
  · push_neg at hc1
    by_cases hc3 : cm.hash a = cm.hash b
    · by_cases hc2 : cm.hash b = cm.lastX11Hash ∨ b = ""
      · refine Or.inr (Or.inr (Or.inr (Or.inl ⟨hc1.1, hc1.2, hc3, hc2, ?_⟩)))
        simp only [syncClipboards]
        rw [hA, hB, waylandToX11Block_nowrite _ _ _ _ _ hc1.1 hc1.2 hc3]
        dsimp only
        rw [x11ToWaylandBlock_skip _ _ _ _ _ (by tauto)]
      · push_neg at hc2
        refine Or.inr (Or.inr (Or.inr (Or.inr (Or.inl
          ⟨hc1.1, hc1.2, hc3, hc2.1, hc2.2, ?_⟩))))
        simp only [syncClipboards]
        rw [hA, hB, waylandToX11Block_nowrite _ _ _ _ _ hc1.1 hc1.2 hc3]
        dsimp only
        rw [x11ToWaylandBlock_nowrite _ _ _ _ _ (by exact hc2.1) hc2.2 hc3.symm]
    · refine Or.inr (Or.inr (Or.inr (Or.inr (Or.inr ⟨hc1.1, hc1.2, hc3, ?_⟩))))
      simp only [syncClipboards]
      rw [hA, hB, waylandToX11Block_write _ _ _ _ _ hc1.1 hc1.2 hc3 hale]
      dsimp only
      rw [x11ToWaylandBlock_skip _ _ _ _ _ (by exact Or.inl rfl)]

/-! ## Claim theorems -/

/-- C2.  Idempotence: from any engine state, run one cycle against
concrete endpoint contents with every external invocation succeeding;
a second cycle whose reads return the contents resulting from the first
cycle performs zero external writes and leaves both fingerprints, and the
whole manager state, unchanged. -/
theorem c2_idempotence (cm : ClipboardManager) (w : World) :
    (syncClipboards (applyCycle cm w).1
       (envOk (applyCycle cm w).2.wayland (applyCycle cm w).2.x11)).x11Write = none ∧
    (syncClipboards (applyCycle cm w).1
       (envOk (applyCycle cm w).2.wayland (applyCycle cm w).2.x11)).waylandWrite = none ∧
    (syncClipboards (applyCycle cm w).1
       (envOk (applyCycle cm w).2.wayland (applyCycle cm w).2.x11)).cm = (applyCycle cm w).1 := by
  obtain ⟨hmax, hw, hx⟩ := applyCycle_coherent cm w
  have hs : syncClipboards (applyCycle cm w).1
      ⟨.ok (applyCycle cm w).2.wayland, .ok (applyCycle cm w).2.x11, true, true⟩ =
      ⟨(applyCycle cm w).1, none, none⟩ := by
    apply sync_noop
    · rw [hmax]
      exact hw
    · rw [hmax]
      exact hx
  simp only [envOk]
  rw [hs]
  exact ⟨rfl, rfl, rfl⟩

/-- C10.  At most one write per cycle: in every cycle at least one of the
two write slots stays empty (a Wayland to X11 write forces the X11
direction to find no divergence), and a cycle performs at most three
external tool invocations in total. -/
theorem c10_at_most_one_write (cm : ClipboardManager) (env : ExtEnv) :
    ((syncClipboards cm env).x11Write = none ∨ (syncClipboards cm env).waylandWrite = none) ∧
    externalInvocations (syncClipboards cm env) ≤ 3 := by
  rcases sync_cases cm env _ _ rfl rfl with
    ⟨_, _, hs⟩ | ⟨_, _, _, _, hs⟩ | ⟨_, _, _, _, hs⟩ | ⟨_, _, _, _, hs⟩ |
    ⟨_, _, _, _, _, hs⟩ | ⟨_, _, _, hs⟩ <;>
  rw [hs] <;> exact ⟨by simp, by simp [externalInvocations]⟩

/-- C7.  Read guarantee: both adapter reads always return a nil error, and
the result is either the empty string (failure, timeout, empty clipboard
or oversized content) or content within the configured size limit. -/
theorem c7_read_guarantee (cm : ClipboardManager) (r : ReadOutcome) :
    (cm.getWaylandClipboard r).2 = none ∧
    ((cm.getWaylandClipboard r).1 = "" ∨
      goLen ((cm.getWaylandClipboard r).1) ≤ cm.maxClipboardSize) ∧
    (cm.getX11Clipboard r).2 = none ∧
    ((cm.getX11Clipboard r).1 = "" ∨
      goLen ((cm.getX11Clipboard r).1) ≤ cm.maxClipboardSize) := by
  cases r with
  | fail => exact ⟨rfl, Or.inl rfl, rfl, Or.inl rfl⟩
  | ok s =>
    rw [getWayland_ok, getX11_ok]
    exact ⟨rfl, Or.inr (clamp_le _ _), rfl, Or.inr (clamp_le _ _)⟩

/-- C6.  Size guard: oversized tool output is turned into the empty read
result by both adapters, and no cycle ever hands oversized content to an
external write invocation. -/
theorem c6_size_guard (cm : ClipboardManager) (s : String) (env : ExtEnv) (c : String)
    (ok : Bool) (h : goLen s > cm.maxClipboardSize) :
    (cm.getWaylandClipboard (.ok s)).1 = "" ∧
    (cm.getX11Clipboard (.ok s)).1 = "" ∧
    ((syncClipboards cm env).x11Write = some (c, ok) → goLen c ≤ cm.maxClipboardSize) ∧
    ((syncClipboards cm env).waylandWrite = some (c, ok) → goLen c ≤ cm.maxClipboardSize) := by
  refine ⟨?_, ?_, ?_, ?_⟩
  · rw [getWayland_ok]
    dsimp only
    unfold clamp
    rw [if_pos h]
  · rw [getX11_ok]
    dsimp only
    unfold clamp
    rw [if_pos h]
  · intro hw
    rcases sync_cases cm env _ _ rfl rfl with
      ⟨_, _, hs⟩ | ⟨_, _, _, _, hs⟩ | ⟨_, _, _, _, hs⟩ | ⟨_, _, _, _, hs⟩ |
      ⟨_, _, _, _, _, hs⟩ | ⟨_, _, _, hs⟩ <;>
    rw [hs] at hw <;> simp at hw
    rw [← hw.1]
    exact readWayland_le cm env.waylandRead
  · intro hw
    rcases sync_cases cm env _ _ rfl rfl with
      ⟨_, _, hs⟩ | ⟨_, _, _, _, hs⟩ | ⟨_, _, _, _, hs⟩ | ⟨_, _, _, _, hs⟩ |
      ⟨_, _, _, _, _, hs⟩ | ⟨_, _, _, hs⟩ <;>
    rw [hs] at hw <;> simp at hw
    rw [← hw.1]
    exact readX11_le cm env.x11Read

/-- C6 witness: a 3-byte string against a 2-byte limit. -/
theorem c6_size_guard_witness :
    goLen "abc" > (cmDemo "" "" 2).maxClipboardSize ∧
    (((cmDemo "" "" 2).getWaylandClipboard (.ok "abc")).1 = "" ∧
     ((cmDemo "" "" 2).getX11Clipboard (.ok "abc")).1 = "" ∧
     ((syncClipboards (cmDemo "" "" 2) (envOk "abc" "")).x11Write = some ("x", true) →
       goLen "x" ≤ (cmDemo "" "" 2).maxClipboardSize) ∧
     ((syncClipboards (cmDemo "" "" 2) (envOk "abc" "")).waylandWrite = some ("x", true) →
       goLen "x" ≤ (cmDemo "" "" 2).maxClipboardSize)) :=
  ⟨by decide, c6_size_guard (cmDemo "" "" 2) "abc" (envOk "abc" "") "x" true (by decide)⟩

/-- C4 counterexample: with both fingerprints empty, Wayland reading foo
and X11 reading bar, the xclip write invocation fails, yet the engine
still advances lastX11Hash away from its previous value, so the next
cycle does not re-attempt the propagation.  This refutes the claim that a
failed write leaves the destination fingerprint unchanged. -/
theorem c4_counterexample :
    (syncClipboards (cmDemo "" "" 100) ⟨.ok "foo", .ok "bar", false, true⟩).x11Write =
      some ("foo", false) ∧
    (syncClipboards (cmDemo "" "" 100) ⟨.ok "foo", .ok "bar", false, true⟩).cm.lastX11Hash ≠
      (cmDemo "" "" 100).lastX11Hash := by
  constructor
  · decide
  · decide

/-- C4 amended: when a cycle hands content to an external write
invocation, the destination fingerprint is set to the digest of that
content regardless of whether the invocation succeeded; the write helpers
always return a nil error, so a failure is invisible to the engine and is
not re-attempted. -/
theorem c4_amended_fingerprint_advances (cm : ClipboardManager) (env : ExtEnv)
    (c : String) (ok : Bool) :
    ((syncClipboards cm env).x11Write = some (c, ok) →
      (syncClipboards cm env).cm.lastX11Hash = cm.hash c) ∧
    ((syncClipboards cm env).waylandWrite = some (c, ok) →
      (syncClipboards cm env).cm.lastWaylandHash = cm.hash c) := by
  rcases sync_cases cm env _ _ rfl rfl with
    ⟨_, _, hs⟩ | ⟨_, _, _, _, hs⟩ | ⟨_, _, _, _, hs⟩ | ⟨_, _, _, _, hs⟩ |
    ⟨_, _, _, _, _, hs⟩ | ⟨_, _, _, hs⟩ <;>
  rw [hs] <;> constructor <;> intro hw <;> simp_all

/-- C4 amended witness: the failed foo write still sets lastX11Hash to
the digest of foo. -/
theorem c4_amended_fingerprint_advances_witness :
    (syncClipboards (cmDemo "" "" 100) ⟨.ok "foo", .ok "bar", false, true⟩).x11Write =
      some ("foo", false) ∧
    (syncClipboards (cmDemo "" "" 100) ⟨.ok "foo", .ok "bar", false, true⟩).cm.lastX11Hash =
      (cmDemo "" "" 100).hash "foo" :=
  ⟨by decide,
   (c4_amended_fingerprint_advances (cmDemo "" "" 100) ⟨.ok "foo", .ok "bar", false, true⟩
     "foo" false).1 (by decide)⟩

/-- C8 counterexample: in the steady state where both fingerprints hold
the digest of a, a cycle whose Wayland read comes back empty (cleared
clipboard or failed read) leaves lastWaylandHash at the digest of a,
which differs from the digest of the content this cycle observed (the
empty string).  This refutes the claim that at the end of every cycle the
fingerprint equals the digest of the content observed by the read of
this cycle or written by this cycle. -/
theorem c8_counterexample :
    (syncClipboards cmSyncedA (envOk "" "a")).cm.lastWaylandHash ≠
      cmSyncedA.hash (believedWayland cmSyncedA (envOk "" "a")) := by decide

/-- C8 amended: at the end of every cycle, for each side, if the believed
content of that side (the content handed to the write tool of that side
this cycle, else the read result of this cycle) is non-empty then the
fingerprint of that side equals its digest; if it is empty the fingerprint is left
unchanged from before the cycle. -/
theorem c8_amended_fingerprint_invariant (cm : ClipboardManager) (env : ExtEnv) :
    (believedWayland cm env ≠ "" →
      (syncClipboards cm env).cm.lastWaylandHash = cm.hash (believedWayland cm env)) ∧
    (believedWayland cm env = "" →
      (syncClipboards cm env).cm.lastWaylandHash = cm.lastWaylandHash) ∧
    (believedX11 cm env ≠ "" →
      (syncClipboards cm env).cm.lastX11Hash = cm.hash (believedX11 cm env)) ∧
    (believedX11 cm env = "" →
      (syncClipboards cm env).cm.lastX11Hash = cm.lastX11Hash) := by
  rcases sync_cases cm env _ _ rfl rfl with
    ⟨_, _, hs⟩ | ⟨_, _, _, _, hs⟩ | ⟨_, _, _, _, hs⟩ | ⟨_, _, _, _, hs⟩ |
    ⟨_, _, _, _, _, hs⟩ | ⟨_, _, _, hs⟩ <;>
  simp only [believedWayland, believedX11, hs] <;>
  refine ⟨fun h => ?_, fun h => ?_, fun h => ?_, fun h => ?_⟩ <;> simp_all

/-- C8 amended witness: after the empty-read cycle the Wayland believed
content is empty and the fingerprint is unchanged. -/
theorem c8_amended_fingerprint_invariant_witness :
    believedWayland cmSyncedA (envOk "" "a") = "" ∧
    (syncClipboards cmSyncedA (envOk "" "a")).cm.lastWaylandHash =
      cmSyncedA.lastWaylandHash :=
  ⟨by decide,
   (c8_amended_fingerprint_invariant cmSyncedA (envOk "" "a")).2.1 (by decide)⟩

/-- C1.  No-echo: after a cycle that reads Wayland A and X11 B and copies
A to the X11 side, a subsequent cycle in which both endpoints read back A
performs no write from X11 to Wayland. -/
theorem c1_no_echo (cm : ClipboardManager) (A B : String) (hAB : A ≠ B)
    (hcopy : (syncClipboards cm (envOk A B)).x11Write = some (A, true)) :
    (syncClipboards (syncClipboards cm (envOk A B)).cm (envOk A A)).waylandWrite = none := by
  have hA : ((cm.getWaylandClipboard (envOk A B).waylandRead).1) =
      clamp cm.maxClipboardSize A := by
    rw [show (envOk A B).waylandRead = .ok A from rfl, getWayland_ok]
  have hB : ((cm.getX11Clipboard (envOk A B).x11Read).1) =
      clamp cm.maxClipboardSize B := by
    rw [show (envOk A B).x11Read = .ok B from rfl, getX11_ok]
  rcases sync_cases cm (envOk A B) _ _ hA hB with
    ⟨_, _, hs⟩ | ⟨_, _, _, _, hs⟩ | ⟨_, _, _, _, hs⟩ | ⟨_, _, _, _, hs⟩ |
    ⟨_, _, _, _, _, hs⟩ | ⟨_, _, _, hs⟩ <;>
  rw [hs] at hcopy ⊢ <;> simp at hcopy ⊢
  show (syncClipboards _ ⟨.ok A, .ok A, true, true⟩).waylandWrite = none
  rw [sync_noop _ A A true true (by exact Or.inr rfl) (by exact Or.inr rfl)]

/-- C1 witness: foo copied over bar, then both sides read back foo. -/
theorem c1_no_echo_witness :
    "foo" ≠ "bar" ∧
    (syncClipboards (cmDemo "" "" 100) (envOk "foo" "bar")).x11Write = some ("foo", true) ∧
    (syncClipboards (syncClipboards (cmDemo "" "" 100) (envOk "foo" "bar")).cm
        (envOk "foo" "foo")).waylandWrite = none :=
  ⟨by decide, by decide,
   c1_no_echo (cmDemo "" "" 100) "foo" "bar" (by decide) (by decide)⟩

/-- C3.  Directional tie-break: from both fingerprints at the digest of
empty content, a cycle reading Wayland foo and X11 bar writes foo to the
X11 side exactly once, performs no write back to Wayland, and leaves the
X11 endpoint holding foo. -/
theorem c3_tie_break :
    (syncClipboards cmEmptyHash (envOk "foo" "bar")).x11Write = some ("foo", true) ∧
    (syncClipboards cmEmptyHash (envOk "foo" "bar")).waylandWrite = none ∧
    (applyCycle cmEmptyHash ⟨"foo", "bar"⟩).2 = ⟨"foo", "foo"⟩ := by
  refine ⟨by decide, by decide, by decide⟩

/-- C5 counterexample: constructing the manager from the default
configuration yields fingerprints equal to the empty string, which is not
the digest of empty content.  This refutes the claim that both
fingerprints initially equal the digest of empty content. -/
theorem c5_counterexample :
    NewClipboardManager cfgDemo true true = .ok cmInit ∧
    cmInit.lastWaylandHash ≠ cmInit.hash "" ∧
    cmInit.lastX11Hash ≠ cmInit.hash "" :=
  ⟨rfl, by decide, by decide⟩

/-- C5 amended: immediately after construction both fingerprints equal
the empty string, the Go zero value of the omitted struct fields (not the
digest of empty content). -/
theorem c5_amended_initial_fingerprints (config : Config) (mk op : Bool)
    (cm : ClipboardManager) (h : NewClipboardManager config mk op = .ok cm) :
    cm.lastWaylandHash = "" ∧ cm.lastX11Hash = "" := by
  unfold NewClipboardManager at h
  split_ifs at h
  all_goals injection h with h
  all_goals constructor <;> rw [← h]

/-- C5 amended witness: the default-configuration manager. -/
theorem c5_amended_initial_fingerprints_witness :
    NewClipboardManager cfgDemo true true = .ok cmInit ∧
    cmInit.lastWaylandHash = "" ∧ cmInit.lastX11Hash = "" :=
  ⟨rfl, c5_amended_initial_fingerprints cfgDemo true true cmInit rfl⟩

/-- C9 counterexample: every required tool is available, the
configuration loads, yet startup terminates with status 1 because the log
directory cannot be created (NewClipboardManager fails).  This refutes
the claim that only the tool-availability precondition may terminate the
process. -/
theorem c9_counterexample :
    mainRun "/home/user" (fun _ => true) (.ok cfgDemo) false true =
      .exitManagerError "failed to create log directory" ∧
    (mainRun "/home/user" (fun _ => true) (.ok cfgDemo) false true).exitStatus = some 1 :=
  ⟨rfl, rfl⟩

/-- C9 amended: termination happens only at startup, either when a
required tool is missing or when manager construction fails because the
log destination cannot be prepared, each with status 1; a configuration
load failure falls back to the built-in defaults without exiting, and
once started no error terminates the process. -/
theorem c9_amended_termination (home : String) (look : String → Bool)
    (load : Except String Config) (mk op : Bool)
    (h1 : look "wl-paste" = true) (h2 : look "wl-copy" = true) (h3 : look "xclip" = true) :
    mainRun home look load mk op =
      match NewClipboardManager
          (match load with | .ok c => c | .error _ => getDefaultConfig home) mk op with
      | .ok cm => .started cm
      | .error e => .exitManagerError e := by
  unfold mainRun requiredTools
  simp [List.find?, h1, h2, h3]

/-- C9 amended witness: all tools present, config load fails, manager
construction succeeds; the daemon starts with the default-configuration
manager instead of exiting. -/
theorem c9_amended_termination_witness :
    (fun _ => true) "wl-paste" = true ∧
    mainRun "/home/user" (fun _ => true) (.error "no config") true true = .started cmInit :=
  ⟨rfl, by
    rw [c9_amended_termination "/home/user" (fun _ => true) (.error "no config") true true
      rfl rfl rfl]
    rfl⟩
